import Mathlib

/-!
Shallow embedding of the dylink symbol-resolution core.

The definitions below are translated from the repository sources:
  * src/src/lazyfn.rs   — the lazy function cell and its link routine
  * src/src/loader.rs   — the memoizing system loader and the OpenGL loader
  * src/src/vulkan.rs   — the Vulkan discovery protocol and the
                          vkGetDeviceProcAddr bootstrap

Platform calls (LoadLibraryExW, dlopen, GetProcAddress, dlsym,
vkGetInstanceProcAddr, vkGetDeviceProcAddr, wgl and glX loaders) are
modelled as deterministic oracles carried in an environment record.
Function addresses are opaque pointer-sized values; 0 stands for the
null pointer. Option results follow the sources: none stands for a null
return of the platform call.
-/

namespace Dylink

/-- Error kinds of the crate, named as at the use sites in
src/src/lazyfn.rs and src/src/loader.rs: LibNotFound (a library failed
to open), FnNotFound (a symbol was not resolvable), ListNotFound (a
whole candidate list was exhausted). -/
inductive ErrorKind where
  | LibNotFound
  | FnNotFound
  | ListNotFound
  deriving DecidableEq, Repr

/-- Modelled from the spec: the module error.rs is declared in
src/src/lib.rs but its file is absent from src/. Its shape is
reconstructed from spec section 7 and from every call site in src/:
DylinkError carries an optional name payload and an error kind
(DylinkError::new(payload, kind)), and kind() projects the kind. -/
structure DylinkError where
  payload : Option String
  kind : ErrorKind
  deriving DecidableEq, Repr

/-- Function addresses are opaque pointer-sized bits; 0 is the null pointer. -/
abbrev FnAddr := Nat

/-- Result of a fallible resolution, Result of FnPtr in the source. -/
inductive LinkResult where
  | ok (addr : FnAddr)
  | err (e : DylinkError)
  deriving DecidableEq, Repr

/-- Deterministic model of the process environment: the platform open
and symbol-resolution calls, the Vulkan registries (the iteration order
of the HashSet registries is fixed by the lists), the per-device and
per-instance proc-address oracles and the platform GL loader. A null
VkInstance is modelled as the value 0 passed to instOracle. -/
structure Env where
  openOracle : String → Option Nat
  resolveOracle : Nat → String → Option FnAddr
  devices : List Nat
  instances : List Nat
  devOracle : Nat → String → Option FnAddr
  instOracle : Nat → String → Option FnAddr
  glOracle : String → Option FnAddr

/-- State of the process-wide DLL_DATA cache of loader.rs: an
association list from library name to opened handle. -/
abbrev LoaderState := List (String × Nat)

/-- Lookup in the DLL_DATA cache (HashMap::get in loader.rs). -/
def cacheLookup : LoaderState → String → Option Nat
  | [], _ => none
  | (k, v) :: rest, name => if k = name then some v else cacheLookup rest name

/-- GetProcAddress and dlsym on an opened handle, loader.rs lines 100
to 115: a null result becomes a FnNotFound error carrying the symbol
name. -/
def resolveSym (env : Env) (handle : Nat) (fnName : String) : LinkResult :=
  match env.resolveOracle handle fnName with
  | some addr => LinkResult.ok addr
  | none => LinkResult.err ⟨some fnName, ErrorKind.FnNotFound⟩

/-- The memoizing system loader, loader.rs lines 53 to 116. Returns the
result, the updated DLL_DATA cache and the list of platform open calls
this invocation performed. A cache hit reuses the stored handle; a miss
invokes the platform open; a successful open is inserted into the
cache; a failed open returns LibNotFound carrying the library name and
leaves the cache unchanged (the failure is not memoized). -/
def loader (env : Env) (libName fnName : String) (s : LoaderState) :
    LinkResult × LoaderState × List String :=
  match cacheLookup s libName with
  | some handle => (resolveSym env handle fnName, s, [])
  | none =>
    match env.openOracle libName with
    | none => (LinkResult.err ⟨some libName, ErrorKind.LibNotFound⟩, s, [libName])
    | some handle => (resolveSym env handle fnName, (libName, handle) :: s, [libName])

/-- The LinkType::Normal candidate loop of lazyfn.rs lines 84 to 103.
The running result starts as a ListNotFound error with a None payload;
a successful loader call stores the address and breaks; a FnNotFound
error stores that error and breaks; any other error (LibNotFound) is
dropped and the loop continues. The third component records the
candidates actually passed to the loader, in order. -/
def normalResolve (env : Env) (fnName : String) :
    List String → LoaderState → LinkResult × LoaderState × List String
  | [], s => (LinkResult.err ⟨none, ErrorKind.ListNotFound⟩, s, [])
  | libName :: rest, s =>
    match loader env libName fnName s with
    | (LinkResult.ok addr, s1, _) => (LinkResult.ok addr, s1, [libName])
    | (LinkResult.err e, s1, _) =>
      if e.kind = ErrorKind.FnNotFound then (LinkResult.err e, s1, [libName])
      else
        match normalResolve env fnName rest s1 with
        | (r, s2, tried) => (r, s2, libName :: tried)

/-- Step one of the Vulkan protocol: vkGetDeviceProcAddr over each
registered device, first non-null wins (lazyfn.rs lines 61 to 63,
vulkan.rs lines 101 to 105). -/
def deviceStep (env : Env) (fnName : String) : Option FnAddr :=
  env.devices.findSome? fun d => env.devOracle d fnName

/-- Step two of the Vulkan protocol: vkGetInstanceProcAddr over each
registered instance, first non-null wins (lazyfn.rs lines 70 to 72,
vulkan.rs lines 108 to 114). -/
def instanceStep (env : Env) (fnName : String) : Option FnAddr :=
  env.instances.findSome? fun i => env.instOracle i fnName

/-- Step three of the Vulkan protocol: one vkGetInstanceProcAddr call
with a null instance (lazyfn.rs lines 74 to 77, vulkan.rs lines 118 to
121). -/
def globalStep (env : Env) (fnName : String) : Option FnAddr :=
  env.instOracle 0 fnName

/-- The LinkType::Vulkan branch of lazyfn.rs lines 59 to 82 (also
vulkan_loader in vulkan.rs lines 100 to 123): devices, then instances,
then the null-instance attempt, and a FnNotFound error carrying the
symbol name when all three steps return null. -/
def vulkanResolve (env : Env) (fnName : String) : LinkResult :=
  match deviceStep env fnName with
  | some addr => LinkResult.ok addr
  | none =>
    match instanceStep env fnName with
    | some addr => LinkResult.ok addr
    | none =>
      match globalStep env fnName with
      | some addr => LinkResult.ok addr
      | none => LinkResult.err ⟨some fnName, ErrorKind.FnNotFound⟩

/-- The OpenGL loader specialization, loader.rs lines 30 to 50:
wglGetProcAddress on Windows, glXGetProcAddress on unix; a null result
becomes a FnNotFound error carrying the symbol name. -/
def glloader (env : Env) (fnName : String) : LinkResult :=
  match env.glOracle fnName with
  | some addr => LinkResult.ok addr
  | none => LinkResult.err ⟨some fnName, ErrorKind.FnNotFound⟩

/-- The link policy of lazyfn.rs lines 5 to 10. The const-generic
candidate array is modelled as a list. -/
inductive LinkType where
  | OpenGL
  | Vulkan
  | Normal (libs : List String)
  deriving DecidableEq, Repr

/-- Dispatch on the link policy, lazyfn.rs lines 58 to 104: the body of
the once closure. Returns the resolution result, the updated loader
cache and the candidates tried (empty for the Vulkan and OpenGL
policies, which do not go through the system loader). -/
def resolveOnce (env : Env) (linkTy : LinkType) (fnName : String) (s : LoaderState) :
    LinkResult × LoaderState × List String :=
  match linkTy with
  | LinkType.Vulkan => (vulkanResolve env fnName, s, [])
  | LinkType.OpenGL => (glloader env fnName, s, [])
  | LinkType.Normal libs => normalResolve env fnName libs s

/-- The mutable portion of a LazyFn cell, lazyfn.rs lines 20 to 29: the
address slot (UnsafeCell of F), the status slot (UnsafeCell of
Option ErrorKind) and whether the sync::Once has fired. -/
structure LazyFn where
  addr : FnAddr
  status : Option ErrorKind
  onceDone : Bool
  deriving DecidableEq, Repr

/-- LazyFn::new, lazyfn.rs lines 39 to 51: the address slot holds the
placeholder thunk, the status slot holds None, the Once has not fired. -/
def LazyFn.new (thunk : FnAddr) : LazyFn := ⟨thunk, none, false⟩

/-- The read performed after call_once, lazyfn.rs lines 116 to 119: a
None status yields the address slot, a stored kind yields a fresh error
built from the cell symbol name and that kind. -/
def readStatus (name : String) (c : LazyFn) : LinkResult :=
  match c.status with
  | none => LinkResult.ok c.addr
  | some kind => LinkResult.err ⟨some name, kind⟩

/-- Outcome of one call to LazyFn::link: the returned result, the cell
and loader-cache states after the call, the candidates tried, and
whether the resolution closure ran during this call. -/
structure LinkOutcome where
  result : LinkResult
  cell : LazyFn
  state : LoaderState
  tried : List String
  ranResolution : Bool
  deriving DecidableEq, Repr

/-- LazyFn::link, lazyfn.rs lines 54 to 120. If the Once has fired the
call only reads the status and address slots. Otherwise the resolution
closure runs once: a success writes the address slot (the status slot
stays untouched), a failure writes only the kind into the status slot;
then the Once is marked fired and the same status read is performed. -/
def link (env : Env) (name : String) (linkTy : LinkType) (c : LazyFn) (s : LoaderState) :
    LinkOutcome :=
  if c.onceDone then ⟨readStatus name c, c, s, [], false⟩
  else
    match resolveOnce env linkTy name s with
    | (LinkResult.ok addr, s1, tried) =>
      let c1 : LazyFn := ⟨addr, c.status, true⟩
      ⟨readStatus name c1, c1, s1, tried, true⟩
    | (LinkResult.err e, s1, tried) =>
      let c1 : LazyFn := ⟨c.addr, some e.kind, true⟩
      ⟨readStatus name c1, c1, s1, tried, true⟩

/-- The instance-registry sweep of the vkGetDeviceProcAddr bootstrap:
vkGetInstanceProcAddr(instance, "vkGetDeviceProcAddr") over each
registered instance, first non-null wins (lazyfn.rs lines 154 to 158,
vulkan.rs lines 69 to 81). -/
def bootstrapFnPtr (env : Env) : Option FnAddr :=
  env.instances.findSome? fun i => env.instOracle i "vkGetDeviceProcAddr"

/-- The write of the bootstrap in lazyfn.rs lines 152 to 162: the
obtained Option is transmuted and written into the address slot of the
DYN_FUNC cell unconditionally, so a None becomes the null pointer 0.
The status slot is never written. -/
def bootstrapOnce (env : Env) (c : LazyFn) : LazyFn :=
  if c.onceDone then c
  else ⟨(bootstrapFnPtr env).getD 0, c.status, true⟩

/-- Outcome of the vulkan.rs variant of the bootstrap, which calls
expect on the sweep result: either a resolved address or a panic. -/
inductive BootstrapOutcome where
  | resolved (addr : FnAddr)
  | panicked
  deriving DecidableEq, Repr

/-- The vkGetDeviceProcAddr bootstrap of vulkan.rs lines 60 to 98: the
instance sweep result is unwrapped with expect, so an empty registry or
an all-null sweep panics instead of producing an error value. -/
def bootstrapDeviceProcAddr (env : Env) : BootstrapOutcome :=
  match bootstrapFnPtr env with
  | some addr => BootstrapOutcome.resolved addr
  | none => BootstrapOutcome.panicked

/-- Lock events on the two Vulkan registry locks. -/
inductive LockEvent where
  | acqDevice
  | relDevice
  | acqInstance
  | relInstance
  deriving DecidableEq, Repr

/-- Lock event trace of the vkGetDeviceProcAddr bootstrap (lazyfn.rs
lines 153 to 160, vulkan.rs lines 68 to 87): only the instance read
lock is taken. -/
def bootstrapTrace : List LockEvent :=
  [LockEvent.acqInstance, LockEvent.relInstance]

/-- Lock event trace of the LinkType::Vulkan branch, from the scopes in
lazyfn.rs lines 59 to 82. The device read lock is acquired at line 60
and the sweep at lines 61 to 63 calls vkGetDeviceProcAddr on each
registered device while that guard is held. When the bootstrap cell has
not yet fired (the Boolean argument) and the device registry is
non-empty, the first of those calls runs initial_fn, whose call_once
acquires the instance read lock for the bootstrap sweep (lazyfn.rs line
154; identically vulkan.rs lines 69 to 71 inside get_or_init) — those
events occur nested inside the device guard. After the sweep the device
guard is released (explicitly at line 66 on a miss, at the end of the
branch on a hit); on a miss the instance read lock is then taken for
the instance sweep and the null-instance attempt, and drops at the end
of its scope. vulkan_loader in vulkan.rs lines 100 to 123 produces the
same event order: its device guard is a temporary held across the
find_map of the first statement and dropped at the end of it, before
the top-level instance lock is taken. -/
def vulkanLinkTrace (env : Env) (fnName : String) (bootFired : Bool) : List LockEvent :=
  LockEvent.acqDevice ::
    ((if env.devices = [] ∨ bootFired = true then [] else bootstrapTrace) ++
      (LockEvent.relDevice ::
        (match deviceStep env fnName with
          | some _ => []
          | none => [LockEvent.acqInstance, LockEvent.relInstance])))

/-- Checks that a trace never acquires the instance lock while the
device lock is held. The Boolean argument tracks whether the device
lock is currently held. -/
def noInstanceWhileDevice : List LockEvent → Bool → Bool
  | [], _ => true
  | LockEvent.acqDevice :: rest, _ => noInstanceWhileDevice rest true
  | LockEvent.relDevice :: rest, _ => noInstanceWhileDevice rest false
  | LockEvent.acqInstance :: rest, devHeld => !devHeld && noInstanceWhileDevice rest devHeld
  | LockEvent.relInstance :: rest, devHeld => noInstanceWhileDevice rest devHeld

/-- Runs a sequence of loader requests (library name, symbol name)
through the memoizing loader, threading the DLL_DATA cache, and
collects every platform open invocation in order. -/
def runLoader (env : Env) : List (String × String) → LoaderState → LoaderState × List String
  | [], s => (s, [])
  | (l, f) :: rest, s =>
    ((runLoader env rest (loader env l f s).2.1).1,
      (loader env l f s).2.2 ++ (runLoader env rest (loader env l f s).2.1).2)

/-- Number of occurrences of a name in a list of open invocations. -/
def countOcc (name : String) : List String → Nat
  | [] => 0
  | x :: rest => (if x = name then 1 else 0) + countOcc name rest

/-- Environment in which every platform call fails: no library opens,
no symbol resolves, both Vulkan registries are empty. -/
def envAllFail : Env where
  openOracle := fun _ => none
  resolveOracle := fun _ _ => none
  devices := []
  instances := []
  devOracle := fun _ _ => none
  instOracle := fun _ _ => none
  glOracle := fun _ => none

/-- Environment with three libraries a, b, d: a fails to open, b opens
on handle 5 but does not export the symbol f, d opens on handle 6 and
exports f at address 99. -/
def envC2 : Env where
  openOracle := fun n => if n = "b" then some 5 else if n = "d" then some 6 else none
  resolveOracle := fun hd n => if hd = 6 ∧ n = "f" then some 99 else none
  devices := []
  instances := []
  devOracle := fun _ _ => none
  instOracle := fun _ _ => none
  glOracle := fun _ => none

/-- Environment with two registered devices 1 and 2; only device 2
knows the symbol vkFoo, at address 42. -/
def envVk : Env where
  openOracle := fun _ => none
  resolveOracle := fun _ _ => none
  devices := [1, 2]
  instances := [9]
  devOracle := fun d n => if d = 2 ∧ n = "vkFoo" then some 42 else none
  instOracle := fun _ _ => none
  glOracle := fun _ => none

/-- Environment with two registered instances 4 and 5; only instance 5
yields an address for vkGetDeviceProcAddr, namely 33. -/
def envBoot : Env where
  openOracle := fun _ => none
  resolveOracle := fun _ _ => none
  devices := []
  instances := [4, 5]
  devOracle := fun _ _ => none
  instOracle := fun i n => if i = 5 ∧ n = "vkGetDeviceProcAddr" then some 33 else none
  glOracle := fun _ => none

/-- Environment in which the library l opens on handle 3 and exports
the symbol f at address 11. -/
def envOpen : Env where
  openOracle := fun nm => if nm = "l" then some 3 else none
  resolveOracle := fun hd nm => if hd = 3 ∧ nm = "f" then some 11 else none
  devices := []
  instances := []
  devOracle := fun _ _ => none
  instOracle := fun _ _ => none
  glOracle := fun _ => none

/-- Helper: findSome? returns the image of the first element on which
the function hits, when everything before it misses. -/
theorem findSome_first {α β : Type} (f : α → Option β) (pre : List α) (d : α)
    (post : List α) (b : β) (hpre : ∀ x ∈ pre, f x = none) (hd : f d = some b) :
    (pre ++ d :: post).findSome? f = some b := by
  induction pre with
  | nil => simp [List.findSome?_cons, hd]
  | cons p ps ih =>
    have hp := hpre p (by simp)
    rw [List.cons_append, List.findSome?_cons, hp]
    exact ih fun x hx => hpre x (by simp [hx])

/-- Loader behaviour on a library that is neither cached nor openable:
a LibNotFound error carrying the library name, the cache unchanged, one
open invocation. -/
theorem loader_open_fail (env : Env) (l f : String) (s : LoaderState)
    (hc : cacheLookup s l = none) (ho : env.openOracle l = none) :
    loader env l f s = (LinkResult.err ⟨some l, ErrorKind.LibNotFound⟩, s, [l]) := by
  simp [loader, hc, ho]

/-- A run of candidates that all fail to open is skipped by the Normal
loop: the result and final cache come from the remaining candidates and
the skipped candidates are prepended to the tried list. -/
theorem normalResolve_skip (env : Env) (fnName : String) (pre : List String)
    (l : List String) (s : LoaderState)
    (hpre : ∀ p ∈ pre, cacheLookup s p = none ∧ env.openOracle p = none) :
    normalResolve env fnName (pre ++ l) s =
      ((normalResolve env fnName l s).1, (normalResolve env fnName l s).2.1,
        pre ++ (normalResolve env fnName l s).2.2) := by
  induction pre with
  | nil => simp
  | cons p ps ih =>
    have hp := hpre p (by simp)
    have hrest : ∀ q ∈ ps, cacheLookup s q = none ∧ env.openOracle q = none := by
      intro q hq
      exact hpre q (by simp [hq])
    have hload := loader_open_fail env p fnName s hp.1 hp.2
    simp only [List.cons_append, normalResolve, hload]
    simp [ErrorKind.FnNotFound, ih hrest]

/-- When every candidate fails to open, the Normal loop returns the
initial ListNotFound error with a None payload, leaves the cache
unchanged and has tried every candidate. -/
theorem normalResolve_all_fail (env : Env) (fnName : String) (libs : List String)
    (s : LoaderState)
    (hall : ∀ n ∈ libs, cacheLookup s n = none ∧ env.openOracle n = none) :
    normalResolve env fnName libs s =
      (LinkResult.err ⟨none, ErrorKind.ListNotFound⟩, s, libs) := by
  have h := normalResolve_skip env fnName libs [] s hall
  simpa [normalResolve] using h

/-- C1: for every lazy cell, link is idempotent. The resolution closure
runs exactly once, on the first call; a second call does not re-run
resolution, returns the same result (the same address after a success,
the same error kind after a failure), and leaves the cell and the
loader cache unchanged. -/
theorem C1_link_idempotent (env : Env) (name : String) (ty : LinkType)
    (thunk : FnAddr) (s : LoaderState) :
    (link env name ty (LazyFn.new thunk) s).ranResolution = true ∧
    (link env name ty (link env name ty (LazyFn.new thunk) s).cell
        (link env name ty (LazyFn.new thunk) s).state).ranResolution = false ∧
    (link env name ty (link env name ty (LazyFn.new thunk) s).cell
        (link env name ty (LazyFn.new thunk) s).state).result
      = (link env name ty (LazyFn.new thunk) s).result ∧
    (link env name ty (link env name ty (LazyFn.new thunk) s).cell
        (link env name ty (LazyFn.new thunk) s).state).cell
      = (link env name ty (LazyFn.new thunk) s).cell ∧
    (link env name ty (link env name ty (LazyFn.new thunk) s).cell
        (link env name ty (LazyFn.new thunk) s).state).state
      = (link env name ty (LazyFn.new thunk) s).state ∧
    (link env name ty (link env name ty (LazyFn.new thunk) s).cell
        (link env name ty (LazyFn.new thunk) s).state).tried = [] := by
  rcases hres : resolveOnce env ty name s with ⟨r, s1, tried⟩
  cases r <;> simp [link, LazyFn.new, hres]

/-- C3 counterexample: a single-candidate cell whose only library fails
to open surfaces an error of kind ListNotFound, not LibNotFound, so the
claimed single-candidate classification fails at this input. -/
theorem C3_counterexample :
    (link envAllFail "f" (LinkType.Normal ["libfoo"]) (LazyFn.new 7) []).result
      = LinkResult.err ⟨some "f", ErrorKind.ListNotFound⟩ ∧
    ErrorKind.ListNotFound ≠ ErrorKind.LibNotFound := by
  constructor
  · rfl
  · decide

/-- C3 amended: when every candidate of a Normal cell fails to open,
link surfaces an error of kind ListNotFound regardless of the length of
the candidate list; the LibNotFound errors produced by the loader are
dropped by the candidate loop. -/
theorem C3_all_fail_kind (env : Env) (fnName : String) (libs : List String)
    (thunk : FnAddr) (s : LoaderState)
    (hall : ∀ n ∈ libs, cacheLookup s n = none ∧ env.openOracle n = none) :
    (link env fnName (LinkType.Normal libs) (LazyFn.new thunk) s).result
      = LinkResult.err ⟨some fnName, ErrorKind.ListNotFound⟩ := by
  have h := normalResolve_all_fail env fnName libs s hall
  simp [link, LazyFn.new, resolveOnce, h, readStatus]

/-- C3 amended, witness: two candidates that both fail to open yield a
surfaced ListNotFound error. -/
theorem C3_all_fail_kind_witness :
    (link envAllFail "f" (LinkType.Normal ["x", "y"]) (LazyFn.new 7) []).result
      = LinkResult.err ⟨some "f", ErrorKind.ListNotFound⟩ := by
  exact C3_all_fail_kind envAllFail "f" ["x", "y"] 7 []
    (by intro n _; exact ⟨rfl, rfl⟩)

/-- C2: a Normal cell tries its candidates strictly in order and stops
at the first one that opens; that candidate decides the outcome (the
resolved address, or a FnNotFound error when the symbol is missing) and
no later candidate is tried, even if one would succeed. The tried list
is exactly the failing prefix followed by the first opening candidate. -/
theorem C2_normal_first_match (env : Env) (fnName : String) (thunk : FnAddr)
    (pre rest : List String) (c : String) (h : Nat) (s : LoaderState)
    (hpre : ∀ p ∈ pre, cacheLookup s p = none ∧ env.openOracle p = none)
    (hc : cacheLookup s c = none) (hopen : env.openOracle c = some h) :
    (link env fnName (LinkType.Normal (pre ++ c :: rest)) (LazyFn.new thunk) s).result
      = resolveSym env h fnName ∧
    (link env fnName (LinkType.Normal (pre ++ c :: rest)) (LazyFn.new thunk) s).tried
      = pre ++ [c] := by
  have hcr : normalResolve env fnName (c :: rest) s
      = (resolveSym env h fnName, (c, h) :: s, [c]) := by
    cases hr : env.resolveOracle h fnName <;>
      simp [normalResolve, loader, hc, hopen, resolveSym, hr]
  have hskip := normalResolve_skip env fnName pre (c :: rest) s hpre
  rw [hcr] at hskip
  simp only [] at hskip
  cases hr : env.resolveOracle h fnName <;>
    simp [link, LazyFn.new, resolveOnce, hskip, resolveSym, hr, readStatus]

/-- C2 witness: candidate a fails to open, candidate b opens but lacks
the symbol f, candidate d would open and resolve f at 99, yet the cell
stops at b with a FnNotFound result and never tries d. -/
theorem C2_normal_first_match_witness :
    (link envC2 "f" (LinkType.Normal (["a"] ++ "b" :: ["d"])) (LazyFn.new 7) []).result
      = resolveSym envC2 5 "f" ∧
    (link envC2 "f" (LinkType.Normal (["a"] ++ "b" :: ["d"])) (LazyFn.new 7) []).tried
      = ["a"] ++ ["b"] := by
  exact C2_normal_first_match envC2 "f" 7 ["a"] ["d"] "b" 5 []
    (by intro p hp; simp only [List.mem_singleton] at hp; subst hp; exact ⟨rfl, by decide⟩)
    rfl (by decide)

/-- C4: the Vulkan branch resolves in exactly three steps: the device
sweep (first non-null vkGetDeviceProcAddr wins), then the instance
sweep, then one null-instance vkGetInstanceProcAddr call; the surfaced
result equals the first non-null of the three steps in that order, and
the FnNotFound error arises exactly when all three steps return null.
The last conjunct states first-match within the device registry. -/
theorem C4_vulkan_three_step (env : Env) (fnName : String) (thunk : FnAddr)
    (s : LoaderState) :
    (link env fnName LinkType.Vulkan (LazyFn.new thunk) s).result
      = vulkanResolve env fnName ∧
    (vulkanResolve env fnName = LinkResult.err ⟨some fnName, ErrorKind.FnNotFound⟩ ↔
      deviceStep env fnName = none ∧ instanceStep env fnName = none ∧
        globalStep env fnName = none) ∧
    vulkanResolve env fnName =
      (match [deviceStep env fnName, instanceStep env fnName,
          globalStep env fnName].findSome? id with
        | some a => LinkResult.ok a
        | none => LinkResult.err ⟨some fnName, ErrorKind.FnNotFound⟩) ∧
    (∀ pre d post a, env.devices = pre ++ d :: post →
      (∀ x ∈ pre, env.devOracle x fnName = none) →
      env.devOracle d fnName = some a →
      vulkanResolve env fnName = LinkResult.ok a) := by
  have hfirst : ∀ pre d post a, env.devices = pre ++ d :: post →
      (∀ x ∈ pre, env.devOracle x fnName = none) →
      env.devOracle d fnName = some a →
      vulkanResolve env fnName = LinkResult.ok a := by
    intro pre d post a hdev hp hda
    have hstep : deviceStep env fnName = some a := by
      unfold deviceStep
      rw [hdev]
      exact findSome_first _ pre d post a hp hda
    simp [vulkanResolve, hstep]
  refine ⟨?_, ?_, ?_, hfirst⟩ <;>
    rcases hd : deviceStep env fnName with _ | a1 <;>
      rcases hi : instanceStep env fnName with _ | a2 <;>
        rcases hg : globalStep env fnName with _ | a3 <;>
          simp [link, LazyFn.new, resolveOnce, vulkanResolve, readStatus,
            List.findSome?_cons, hd, hi, hg]

/-- C4 witness: with devices 1 and 2 registered and only device 2
knowing vkFoo, the Vulkan resolution returns address 42. -/
theorem C4_vulkan_three_step_witness :
    vulkanResolve envVk "vkFoo" = LinkResult.ok 42 := by
  exact (C4_vulkan_three_step envVk "vkFoo" 7 []).2.2.2 [1] 2 [] 42 rfl
    (by intro x hx; simp only [List.mem_singleton] at hx; subst hx; decide)
    (by decide)

/-- C5 counterexample: with an empty instance registry, the
vkGetDeviceProcAddr bootstrap of vulkan.rs panics (the modelled outcome
has no error constructor at all), and the bootstrap of lazyfn.rs writes
the null pointer 0 into the address slot while leaving the status slot
free of any error; neither path produces a SymbolNotFound error as the
claim states. -/
theorem C5_counterexample :
    bootstrapDeviceProcAddr envAllFail = BootstrapOutcome.panicked ∧
    (bootstrapOnce envAllFail (LazyFn.new 7)).addr = 0 ∧
    (bootstrapOnce envAllFail (LazyFn.new 7)).status = none := by
  exact ⟨rfl, rfl, rfl⟩

/-- C5 amended: the bootstrap consults the instance registry and the
first instance whose vkGetInstanceProcAddr result is non-null wins;
when the registry is empty or no instance yields an address, the
vulkan.rs variant panics and the lazyfn.rs variant stores the null
pointer in the address slot — no SymbolNotFound error is produced. -/
theorem C5_bootstrap_first_instance (env : Env) (t : FnAddr) :
    (∀ a, bootstrapFnPtr env = some a →
      bootstrapDeviceProcAddr env = BootstrapOutcome.resolved a ∧
      (bootstrapOnce env (LazyFn.new t)).addr = a) ∧
    (bootstrapFnPtr env = none →
      bootstrapDeviceProcAddr env = BootstrapOutcome.panicked ∧
      (bootstrapOnce env (LazyFn.new t)).addr = 0) ∧
    (env.instances = [] → bootstrapFnPtr env = none) ∧
    (∀ pre i post a, env.instances = pre ++ i :: post →
      (∀ x ∈ pre, env.instOracle x "vkGetDeviceProcAddr" = none) →
      env.instOracle i "vkGetDeviceProcAddr" = some a →
      bootstrapFnPtr env = some a) := by
  refine ⟨?_, ?_, ?_, ?_⟩
  · intro a ha
    simp [bootstrapDeviceProcAddr, bootstrapOnce, LazyFn.new, ha]
  · intro ha
    simp [bootstrapDeviceProcAddr, bootstrapOnce, LazyFn.new, ha]
  · intro hi
    simp [bootstrapFnPtr, hi]
  · intro pre i post a hins hp hia
    unfold bootstrapFnPtr
    rw [hins]
    exact findSome_first _ pre i post a hp hia

/-- C5 amended, witness: with instances 4 and 5 registered and only
instance 5 yielding an address, the bootstrap resolves to 33 and the
lazyfn.rs variant stores 33 in the address slot. -/
theorem C5_bootstrap_first_instance_witness :
    bootstrapDeviceProcAddr envBoot = BootstrapOutcome.resolved 33 ∧
    (bootstrapOnce envBoot (LazyFn.new 7)).addr = 33 := by
  have hfn := (C5_bootstrap_first_instance envBoot 7).2.2.2 [4] 5 [] 33 rfl
    (by intro x hx; simp only [List.mem_singleton] at hx; subst hx; decide)
    (by decide)
  exact (C5_bootstrap_first_instance envBoot 7).1 33 hfn

/-- C6 counterexample: in the bootstrap cell of lazyfn.rs, a failed
resolution (the instance sweep returns no address) still overwrites the
address slot: the placeholder 7 is replaced by the null pointer 0,
which is neither the placeholder nor an address returned by a
successful resolution, so the claimed lifetime invariant fails. -/
theorem C6_counterexample :
    (bootstrapOnce envAllFail (LazyFn.new 7)).addr = 0 ∧
    (LazyFn.new 7).addr = 7 ∧
    bootstrapFnPtr envAllFail = none ∧
    (0 : Nat) ≠ 7 := by
  exact ⟨rfl, rfl, rfl, by decide⟩

/-- C6 amended: for cells resolved through link, the invariant holds: a
link call that ends in an error writes only the status slot and leaves
the address slot holding the placeholder, and a successful link stores
exactly the address produced by the resolution (with the status slot
left empty); the lazyfn.rs bootstrap cell is the exception, as it may
overwrite the slot with a transmuted null on failure. -/
theorem C6_addr_slot (env : Env) (name : String) (ty : LinkType) (thunk : FnAddr)
    (s : LoaderState) :
    (∀ e, (link env name ty (LazyFn.new thunk) s).result = LinkResult.err e →
      (link env name ty (LazyFn.new thunk) s).cell.addr = thunk ∧
      (link env name ty (LazyFn.new thunk) s).cell.status = some e.kind) ∧
    (∀ a, (link env name ty (LazyFn.new thunk) s).result = LinkResult.ok a →
      (resolveOnce env ty name s).1 = LinkResult.ok a ∧
      (link env name ty (LazyFn.new thunk) s).cell.addr = a ∧
      (link env name ty (LazyFn.new thunk) s).cell.status = none) := by
  rcases hres : resolveOnce env ty name s with ⟨r, s1, tried⟩
  cases r with
  | ok addr =>
    constructor
    · intro e he
      simp [link, LazyFn.new, hres, readStatus] at he
    · intro a ha
      simp only [link, LazyFn.new, hres, readStatus] at ha ⊢
      simp at ha
      simp [ha]
  | err e0 =>
    constructor
    · intro e he
      simp only [link, LazyFn.new, hres, readStatus] at he ⊢
      simp at he ⊢
      simp [← he]
    · intro a ha
      simp [link, LazyFn.new, hres, readStatus] at ha

/-- C6 amended, witness: a Normal cell whose only candidate fails to
open keeps its placeholder 7 in the address slot and records only the
error kind in the status slot. -/
theorem C6_addr_slot_witness :
    (link envAllFail "f" (LinkType.Normal ["x"]) (LazyFn.new 7) []).cell.addr = 7 ∧
    (link envAllFail "f" (LinkType.Normal ["x"]) (LazyFn.new 7) []).cell.status
      = some ErrorKind.ListNotFound := by
  exact (C6_addr_slot envAllFail "f" (LinkType.Normal ["x"]) 7 []).1
    ⟨some "f", ErrorKind.ListNotFound⟩ rfl

/-- Helper: an error coming out of the Normal candidate loop is of kind
ListNotFound or FnNotFound; the LibNotFound errors of the loader are
dropped inside the loop. -/
theorem normalResolve_err_kind (env : Env) (fnName : String) :
    ∀ (libs : List String) (s : LoaderState) (e : DylinkError),
      (normalResolve env fnName libs s).1 = LinkResult.err e →
      e.kind = ErrorKind.ListNotFound ∨ e.kind = ErrorKind.FnNotFound := by
  intro libs
  induction libs with
  | nil =>
    intro s e he
    simp [normalResolve] at he
    simp [← he]
  | cons l rest ih =>
    intro s e he
    rcases hl : loader env l fnName s with ⟨r1, s1, o1⟩
    cases r1 with
    | ok addr => simp [normalResolve, hl] at he
    | err e1 =>
      by_cases hk : e1.kind = ErrorKind.FnNotFound
      · simp [normalResolve, hl, hk] at he
        right
        rw [← he]
        exact hk
      · rcases hrec : normalResolve env fnName rest s1 with ⟨r2, s2, t2⟩
        simp [normalResolve, hl, hk, hrec] at he
        have := ih s1 e
        rw [hrec] at this
        exact this (by simp [he])

/-- Helper: no error produced by the resolution closure is of kind
LibNotFound: the Vulkan and OpenGL branches only produce FnNotFound and
the Normal loop only ListNotFound or FnNotFound. -/
theorem resolveOnce_err_kind (env : Env) (ty : LinkType) (name : String)
    (s : LoaderState) (e : DylinkError)
    (he : (resolveOnce env ty name s).1 = LinkResult.err e) :
    e.kind ≠ ErrorKind.LibNotFound := by
  cases ty with
  | Vulkan =>
    rcases hd : deviceStep env name with _ | a1 <;>
      rcases hi : instanceStep env name with _ | a2 <;>
        rcases hg : globalStep env name with _ | a3
    all_goals simp [resolveOnce, vulkanResolve, hd, hi, hg] at he
    all_goals simp [← he]
  | OpenGL =>
    cases hg : env.glOracle name <;> simp [resolveOnce, glloader, hg] at he
    simp [← he]
  | Normal libs =>
    rcases normalResolve_err_kind env name libs s e he with h | h <;> simp [h]

/-- C7 counterexample: a two-candidate Normal cell whose candidates a
and b both fail to open surfaces a ListNotFound error whose payload is
the symbol name f, not the candidate list: the payload field is a
single optional name and holds neither a nor b. -/
theorem C7_counterexample :
    (link envAllFail "f" (LinkType.Normal ["a", "b"]) (LazyFn.new 7) []).result
      = LinkResult.err ⟨some "f", ErrorKind.ListNotFound⟩ ∧
    "f" ≠ "a" ∧ "f" ≠ "b" := by
  exact ⟨rfl, by decide, by decide⟩

/-- C7 amended: every error surfaced from link carries the symbol name
of the cell as its payload, whatever its kind: the payload of the
internally produced error is discarded when the failure is memoized
(only the kind is stored) and the surfaced error is rebuilt from the
cell name. Moreover link never surfaces a LibNotFound error. -/
theorem C7_surfaced_payload (env : Env) (name : String) (ty : LinkType)
    (thunk : FnAddr) (s : LoaderState) :
    ∀ e, (link env name ty (LazyFn.new thunk) s).result = LinkResult.err e →
      e.payload = some name ∧ e.kind ≠ ErrorKind.LibNotFound := by
  intro e he
  rcases hres : resolveOnce env ty name s with ⟨r, s1, tried⟩
  cases r with
  | ok addr => simp [link, LazyFn.new, hres, readStatus] at he
  | err e0 =>
    have hkind : e0.kind ≠ ErrorKind.LibNotFound := by
      apply resolveOnce_err_kind env ty name s e0
      rw [hres]
    simp only [link, LazyFn.new, hres, readStatus] at he
    simp at he
    rw [← he]
    exact ⟨rfl, hkind⟩

/-- C7 amended, witness: the surfaced ListNotFound of a failing
two-candidate cell carries the symbol name f. -/
theorem C7_surfaced_payload_witness :
    (DylinkError.mk (some "f") ErrorKind.ListNotFound).payload = some "f" ∧
    (DylinkError.mk (some "f") ErrorKind.ListNotFound).kind ≠ ErrorKind.LibNotFound := by
  exact C7_surfaced_payload envAllFail "f" (LinkType.Normal ["a", "b"]) 7 []
    ⟨some "f", ErrorKind.ListNotFound⟩ rfl

/-- Helper: occurrence counting distributes over append. -/
theorem countOcc_append (n : String) (a b : List String) :
    countOcc n (a ++ b) = countOcc n a + countOcc n b := by
  induction a with
  | nil => simp [countOcc]
  | cons x xs ih => simp [countOcc, ih, Nat.add_assoc]

/-- Helper: a loader call preserves every cached handle. -/
theorem loader_preserve (env : Env) (l f n : String) (s : LoaderState) (h : Nat)
    (hn : cacheLookup s n = some h) :
    cacheLookup (loader env l f s).2.1 n = some h := by
  cases hcl : cacheLookup s l with
  | some hh => simp [loader, hcl, hn]
  | none =>
    cases ho : env.openOracle l with
    | none => simp [loader, hcl, ho, hn]
    | some hh =>
      have hne : ¬ l = n := by
        intro heq
        rw [heq, hn] at hcl
        cases hcl
      simp [loader, hcl, ho, cacheLookup, hne, hn]

/-- Helper: a loader call performs no open on a cache hit, and at most
the one open of its own library otherwise. -/
theorem loader_opens_sub (env : Env) (l f : String) (s : LoaderState) :
    (loader env l f s).2.2 = [] ∨ (loader env l f s).2.2 = [l] := by
  cases hcl : cacheLookup s l with
  | some h => left; simp [loader, hcl]
  | none => cases ho : env.openOracle l <;> right <;> simp [loader, hcl, ho]

/-- Helper: once a library name is cached, no later loader call in any
request sequence invokes the platform open on it. -/
theorem runLoader_cached (env : Env) (n : String) (h : Nat) :
    ∀ (reqs : List (String × String)) (s : LoaderState), cacheLookup s n = some h →
      countOcc n (runLoader env reqs s).2 = 0 := by
  intro reqs
  induction reqs with
  | nil => intro s _; simp [runLoader, countOcc]
  | cons req rest ih =>
    rcases req with ⟨l, f⟩
    intro s hs
    have hs1 : cacheLookup (loader env l f s).2.1 n = some h :=
      loader_preserve env l f n s h hs
    have ho1 : countOcc n (loader env l f s).2.2 = 0 := by
      by_cases hln : l = n
      · subst hln
        have hload : loader env l f s = (resolveSym env h f, s, []) := by
          simp [loader, hs]
        simp [hload, countOcc]
      · rcases loader_opens_sub env l f s with h0 | h0 <;> simp [h0, countOcc, hln]
    simp only [runLoader, countOcc_append, ho1, Nat.zero_add]
    exact ih _ hs1

/-- Helper: for a library whose platform open succeeds, the open is
invoked at most once across any sequence of loader calls: the first
invocation memoizes the handle and every later call hits the cache. -/
theorem runLoader_once (env : Env) (n : String)
    (hsucc : (env.openOracle n).isSome = true) :
    ∀ (reqs : List (String × String)) (s : LoaderState),
      countOcc n (runLoader env reqs s).2 ≤ 1 := by
  intro reqs
  induction reqs with
  | nil => intro s; simp [runLoader, countOcc]
  | cons req rest ih =>
    rcases req with ⟨l, f⟩
    intro s
    cases hcl : cacheLookup s l with
    | some hh =>
      have hload : loader env l f s = (resolveSym env hh f, s, []) := by
        simp [loader, hcl]
      simp only [runLoader, hload, countOcc_append]
      simp only [countOcc, Nat.zero_add]
      exact ih s
    | none =>
      cases ho : env.openOracle l with
      | none =>
        have hln : ¬ l = n := by
          intro heq
          rw [heq] at ho
          rw [ho] at hsucc
          simp at hsucc
        have hload : loader env l f s
            = (LinkResult.err ⟨some l, ErrorKind.LibNotFound⟩, s, [l]) := by
          simp [loader, hcl, ho]
        simp only [runLoader, hload, countOcc_append]
        simp only [countOcc, hln, if_false, Nat.zero_add, Nat.add_zero]
        exact ih s
      | some hh =>
        have hload : loader env l f s = (resolveSym env hh f, (l, hh) :: s, [l]) := by
          simp [loader, hcl, ho]
        by_cases hln : l = n
        · subst hln
          have hc : countOcc l (runLoader env rest ((l, hh) :: s)).2 = 0 :=
            runLoader_cached env l hh rest ((l, hh) :: s) (by simp [cacheLookup])
          simp [runLoader, hload, countOcc_append, countOcc, hc]
        · simp only [runLoader, hload, countOcc_append]
          simp only [countOcc, hln, if_false, Nat.zero_add, Nat.add_zero]
          exact ih _

/-- Helper: a repeated loader call on the same library and symbol
returns the same result and the same cache as the first call. -/
theorem loader_idem (env : Env) (l f : String) (s : LoaderState) :
    (loader env l f (loader env l f s).2.1).1 = (loader env l f s).1 ∧
    (loader env l f (loader env l f s).2.1).2.1 = (loader env l f s).2.1 := by
  cases hcl : cacheLookup s l with
  | some h => simp [loader, hcl]
  | none =>
    cases ho : env.openOracle l with
    | none => simp [loader, hcl, ho]
    | some h => simp [loader, hcl, ho, cacheLookup]

/-- C8 counterexample: a library that never opens is opened twice by
two resolutions that reference it — a failed open is not memoized, so
the platform open is not invoked at most once per process per name. -/
theorem C8_counterexample :
    (runLoader envAllFail [("l", "f"), ("l", "f")] []).2 = ["l", "l"] ∧
    countOcc "l" (runLoader envAllFail [("l", "f"), ("l", "f")] []).2 = 2 := by
  exact ⟨rfl, rfl⟩

/-- C8 amended: for a library name whose platform open succeeds, the
open is invoked at most once per process across any sequence of loader
calls — the first success is memoized and reused — and a repeated
loader call returns the same result and leaves the cache unchanged;
only a name whose open fails can be opened repeatedly. -/
theorem C8_open_memoized (env : Env) (n l f : String)
    (reqs : List (String × String)) (s : LoaderState)
    (hsucc : (env.openOracle n).isSome = true) :
    countOcc n (runLoader env reqs []).2 ≤ 1 ∧
    (loader env l f (loader env l f s).2.1).1 = (loader env l f s).1 ∧
    (loader env l f (loader env l f s).2.1).2.1 = (loader env l f s).2.1 := by
  exact ⟨runLoader_once env n hsucc reqs [], (loader_idem env l f s).1,
    (loader_idem env l f s).2⟩

/-- C8 amended, witness: with the library l opening on handle 3, two
resolutions invoke the platform open at most once, and the repeated
call is observationally identical. -/
theorem C8_open_memoized_witness :
    countOcc "l" (runLoader envOpen [("l", "f"), ("l", "f")] []).2 ≤ 1 ∧
    (loader envOpen "l" "f" (loader envOpen "l" "f" []).2.1).1
      = (loader envOpen "l" "f" []).1 ∧
    (loader envOpen "l" "f" (loader envOpen "l" "f" []).2.1).2.1
      = (loader envOpen "l" "f" []).2.1 := by
  exact C8_open_memoized envOpen "l" "l" "f" [("l", "f"), ("l", "f")] [] (by decide)

/-- C9 counterexample: with a non-empty device registry and the
vkGetDeviceProcAddr bootstrap not yet fired, the first Vulkan
resolution acquires the instance read lock inside the device sweep,
while the device read lock is still held — the no-nesting property
fails on this execution path. -/
theorem C9_counterexample :
    noInstanceWhileDevice (vulkanLinkTrace envVk "vkFoo" false) false = false := by
  decide

/-- C9 amended: once the vkGetDeviceProcAddr bootstrap has fired, no
path of the Vulkan resolution acquires the instance lock while the
device lock is held (the top-level transition from the device sweep to
the instance sweep releases the device read lock first), and the
bootstrap on its own takes only the instance lock; with an empty device
registry the discipline also holds on the first call. However, the
first resolution with devices registered fires the bootstrap inside the
device sweep and thus acquires the instance read lock while the device
read lock is held. -/
theorem C9_lock_discipline (env : Env) (fnName : String) :
    noInstanceWhileDevice (vulkanLinkTrace env fnName true) false = true ∧
    noInstanceWhileDevice bootstrapTrace false = true ∧
    (env.devices = [] →
      noInstanceWhileDevice (vulkanLinkTrace env fnName false) false = true) ∧
    (env.devices ≠ [] →
      noInstanceWhileDevice (vulkanLinkTrace env fnName false) false = false) := by
  refine ⟨?_, by decide, ?_, ?_⟩
  · cases hd : deviceStep env fnName <;>
      simp [vulkanLinkTrace, hd, noInstanceWhileDevice, bootstrapTrace]
  · intro he
    cases hd : deviceStep env fnName <;>
      simp [vulkanLinkTrace, hd, he, noInstanceWhileDevice, bootstrapTrace]
  · intro he
    cases hd : deviceStep env fnName <;>
      simp [vulkanLinkTrace, hd, he, noInstanceWhileDevice, bootstrapTrace]

/-- C9 amended, witness: after the bootstrap has fired the discipline
holds with devices registered; on the first call it holds with an empty
device registry and fails with a non-empty one. -/
theorem C9_lock_discipline_witness :
    noInstanceWhileDevice (vulkanLinkTrace envVk "vkFoo" true) false = true ∧
    noInstanceWhileDevice (vulkanLinkTrace envAllFail "vkFoo" false) false = true ∧
    noInstanceWhileDevice (vulkanLinkTrace envVk "vkFoo" false) false = false := by
  exact ⟨(C9_lock_discipline envVk "vkFoo").1,
    (C9_lock_discipline envAllFail "vkFoo").2.2.1 rfl,
    (C9_lock_discipline envVk "vkFoo").2.2.2 (by decide)⟩

/-- C10: the link policy has a third variant OpenGL, distinct from
Vulkan and from every Normal policy; a cell with the OpenGL policy
resolves through the platform GL loader and surfaces a FnNotFound
error carrying the symbol name exactly when that loader returns null,
and the resolved address otherwise. -/
theorem C10_opengl_variant (env : Env) (fnName : String) (thunk : FnAddr)
    (s : LoaderState) :
    (link env fnName LinkType.OpenGL (LazyFn.new thunk) s).result
      = glloader env fnName ∧
    (glloader env fnName = LinkResult.err ⟨some fnName, ErrorKind.FnNotFound⟩ ↔
      env.glOracle fnName = none) ∧
    (∀ a, glloader env fnName = LinkResult.ok a ↔ env.glOracle fnName = some a) ∧
    LinkType.OpenGL ≠ LinkType.Vulkan ∧
    (∀ libs, LinkType.OpenGL ≠ LinkType.Normal libs) := by
  refine ⟨?_, ?_, ?_, by simp, by simp⟩
  · cases hg : env.glOracle fnName <;>
      simp [link, LazyFn.new, resolveOnce, glloader, hg, readStatus]
  · cases hg : env.glOracle fnName <;> simp [glloader, hg]
  · intro a
    cases hg : env.glOracle fnName <;> simp [glloader, hg]

/-- C10 witness: with a GL loader that knows no symbol, the OpenGL
resolution of g is the FnNotFound error carrying g. -/
theorem C10_opengl_variant_witness :
    glloader envAllFail "g" = LinkResult.err ⟨some "g", ErrorKind.FnNotFound⟩ := by
  exact (C10_opengl_variant envAllFail "g" 7 []).2.1.mpr rfl

end Dylink
